import Mathlib

/-!
Shallow embedding of chatterino's `SharedMessageBuilder.cpp` highlight
resolution engine (badge parsing, `parseHighlights`, `triggerHighlights`,
and the fallback highlight sound), together with proofs about the
invariants and behaviours of these functions.

Strings model `QString`; URLs are modelled as strings, with
`QUrl::fromLocalFile p` rendered as `"file://" ++ p`.  Rule matching
(`HighlightPhrase::isMatch`, `HighlightBadge::isMatch`), the user
blacklist, muted channels, streamer mode and application focus are
configuration/run-time inputs of the engine (their implementations live
outside this translation unit), so they are carried as fields of the
configuration and context records.
-/

namespace Chatterino

/-- Splitting a character list at every occurrence of `sep`, keeping empty
parts, mirroring Qt's `QString::split` with `KeepEmptyParts`. -/
def splitChar (sep : Char) : List Char → List (List Char)
  | [] => [[]]
  | c :: cs =>
    match splitChar sep cs with
    | [] => [[]]
    | cur :: rest =>
      if c = sep then [] :: cur :: rest else (c :: cur) :: rest

/-- Lookup of a key in an association list, mirroring `QVariantMap::find`. -/
def tagLookup (tags : List (String × String)) (key : String) : Option String :=
  match tags with
  | [] => none
  | (k, v) :: rest => if k = key then some v else tagLookup rest key

/-- Membership of a string in a list (`QStringList::contains`-like). -/
def memberStr : List String → String → Bool
  | [], _ => false
  | x :: xs, y => if x = y then true else memberStr xs y

/-- Badge value: a `{name, version}` pair, from `Badge` in the source. -/
structure Badge where
  name : String
  version : String
deriving DecidableEq

/-- Embedding of `parseTagList`: the tag value for `key` split on `','`
with `QString::SplitBehavior::SkipEmptyParts` (empty tokens removed);
an absent key yields the empty list. -/
def parseTagList (tags : List (String × String)) (key : String) : List String :=
  match tagLookup tags key with
  | none => []
  | some v => ((splitChar ',' v.data).filter (fun l => !l.isEmpty)).map String.mk

/-- Loop body of `parseBadges`: each token is split on `'/'` (keeping empty
parts, Qt's default); a token is kept iff it splits into exactly two parts,
otherwise the loop `continue`s. -/
def parseBadgesAux : List String → List Badge
  | [] => []
  | tok :: rest =>
    match splitChar '/' tok.data with
    | [a, b] => ⟨String.mk a, String.mk b⟩ :: parseBadgesAux rest
    | _ => parseBadgesAux rest

/-- Embedding of `parseBadges`. -/
def parseBadges (tags : List (String × String)) : List Badge :=
  parseBadgesAux (parseTagList tags "badges")

/-- Highlight colors by provenance, mirroring `ColorProvider`'s
`ColorType` for the fixed colors and a configured `QColor` for rule
colors. -/
inductive HColor where
  | subscription
  | whisper
  | selfHighlight
  | custom (c : String)
deriving DecidableEq

/-- Configured `HighlightPhrase` rule.  `isMatch` is the rule's pure match
predicate (regex/substring matching implemented outside this translation
unit); `soundUrl = ""` means no custom sound (`hasCustomSound()` is
"sound URL non-empty"). -/
structure HighlightPhrase where
  isMatch : String → Bool
  showInMentions : Bool
  hasAlert : Bool
  hasSound : Bool
  soundUrl : String
  color : HColor

/-- Configured `HighlightBadge` rule, matching against parsed badges. -/
structure HighlightBadge where
  isMatch : Badge → Bool
  hasAlert : Bool
  hasSound : Bool
  soundUrl : String
  color : HColor

/-- Configuration snapshot consumed by `parseHighlights`: the settings it
reads, the highlight rule lists, the user blacklist, and the current
user's identity.  `selfIsMatch` is the match predicate of the
`HighlightPhrase` synthesized from the current user's name. -/
structure Config where
  enableSubHighlight : Bool
  enableSubHighlightTaskbar : Bool
  enableSubHighlightSound : Bool
  subHighlightSoundUrl : String
  enableWhisperHighlight : Bool
  enableWhisperHighlightTaskbar : Bool
  enableWhisperHighlightSound : Bool
  whisperHighlightSoundUrl : String
  blacklistedUsers : List String
  highlightedUsers : List HighlightPhrase
  highlightedMessages : List HighlightPhrase
  enableSelfHighlight : Bool
  showSelfHighlightInMentions : Bool
  enableSelfHighlightTaskbar : Bool
  enableSelfHighlightSound : Bool
  selfHighlightSoundUrl : String
  selfIsMatch : String → Bool
  highlightedBadges : List HighlightBadge
  customHighlightSound : Bool
  pathHighlightSound : String
  pathHighlightSoundExists : Bool
  pathHighlightSoundIsFile : Bool
  currentUsername : String
  currentUserIsAnon : Bool

/-- Message inputs read by `parseHighlights`: the `Subscription` message
flag, `args.isReceivedWhisper`, the sender's nick, the message text and
the raw tag mapping. -/
structure Msg where
  isSubscription : Bool
  isReceivedWhisper : Bool
  nick : String
  text : String
  tags : List (String × String)

/-- Resolution accumulator: the message's `Highlighted` and
`ShowInMentions` flags and `highlightColor`, plus the builder fields
`highlightAlert_`, `highlightSound_`, `highlightSoundUrl_`. -/
structure ResolveState where
  highlighted : Bool
  showInMentions : Bool
  highlightColor : Option HColor
  highlightAlert : Bool
  highlightSound : Bool
  highlightSoundUrl : Option String
deriving DecidableEq

/-- State at entry to `parseHighlights`: no flags set, no color, no sound
URL. -/
def initState : ResolveState :=
  { highlighted := false
    showInMentions := false
    highlightColor := none
    highlightAlert := false
    highlightSound := false
    highlightSoundUrl := none }

/-- Embedding of `getFallbackHighlightSound`: the configured custom path
as a local-file URL when the setting is on and the path is an existing
regular file, else the built-in `qrc:/sounds/ping2.wav`. -/
def getFallbackHighlightSound (cfg : Config) : String :=
  if cfg.customHighlightSound &&
      (cfg.pathHighlightSoundExists && cfg.pathHighlightSoundIsFile) then
    "file://" ++ cfg.pathHighlightSound
  else
    "qrc:/sounds/ping2.wav"

/-- Embedding of `getCSettings().isBlacklistedUser`. -/
def isBlacklistedUser (cfg : Config) (nick : String) : Bool :=
  memberStr cfg.blacklistedUsers nick

/-- The condition guarding color writes in the user/phrase/badge
categories: `message().flags.has(MessageFlag::Subscription) &&
getSettings()->enableSubHighlight`. -/
def subColorGuard (cfg : Config) (msg : Msg) : Bool :=
  msg.isSubscription && cfg.enableSubHighlight

/-- Subscription category of `parseHighlights`: when the message carries
the `Subscription` flag and sub-highlights are enabled, set alert/sound
(with custom-or-fallback URL) per their settings, set `Highlighted`, and
set the Subscription color. -/
def subStage (cfg : Config) (msg : Msg) (s : ResolveState) : ResolveState :=
  if msg.isSubscription && cfg.enableSubHighlight then
    { highlighted := true
      showInMentions := s.showInMentions
      highlightColor := some HColor.subscription
      highlightAlert := if cfg.enableSubHighlightTaskbar then true else s.highlightAlert
      highlightSound := if cfg.enableSubHighlightSound then true else s.highlightSound
      highlightSoundUrl :=
        if cfg.enableSubHighlightSound then
          some (if cfg.subHighlightSoundUrl = "" then getFallbackHighlightSound cfg
                else cfg.subHighlightSoundUrl)
        else s.highlightSoundUrl }
  else s

/-- Whisper category of `parseHighlights`: on a received whisper with
whisper-highlight enabled, set alert/sound per their settings and set the
Whisper color; the `Highlighted` flag is not touched and the function
does not return here. -/
def whisperStage (cfg : Config) (msg : Msg) (s : ResolveState) : ResolveState :=
  if msg.isReceivedWhisper && cfg.enableWhisperHighlight then
    { highlighted := s.highlighted
      showInMentions := s.showInMentions
      highlightColor := some HColor.whisper
      highlightAlert := if cfg.enableWhisperHighlightTaskbar then true else s.highlightAlert
      highlightSound := if cfg.enableWhisperHighlightSound then true else s.highlightSound
      highlightSoundUrl :=
        if cfg.enableWhisperHighlightSound then
          some (if cfg.whisperHighlightSoundUrl = "" then getFallbackHighlightSound cfg
                else cfg.whisperHighlightSoundUrl)
        else s.highlightSoundUrl }
  else s

/-- Body of the per-user rule loop for one matching rule: set
`Highlighted`; set the rule color unless the subscription color guard
holds; set mentions/alert per the rule; on `hasSound`, set the sound flag
and overwrite the URL (custom if non-empty, else fallback). -/
def applyUserRule (cfg : Config) (msg : Msg) (r : HighlightPhrase)
    (s : ResolveState) : ResolveState :=
  { highlighted := true
    showInMentions := if r.showInMentions then true else s.showInMentions
    highlightColor := if subColorGuard cfg msg then s.highlightColor else some r.color
    highlightAlert := if r.hasAlert then true else s.highlightAlert
    highlightSound := if r.hasSound then true else s.highlightSound
    highlightSoundUrl :=
      if r.hasSound then
        some (if r.soundUrl = "" then getFallbackHighlightSound cfg else r.soundUrl)
      else s.highlightSoundUrl }

/-- Per-user rule loop of `parseHighlights`.  Rules that do not match the
nick are skipped; after a matching rule is applied, if both alert and
sound are set the whole resolution returns (`true` in the result flags
that `return`). -/
def userLoop (cfg : Config) (msg : Msg) :
    List HighlightPhrase → ResolveState → ResolveState × Bool
  | [], s => (s, false)
  | r :: rs, s =>
    if r.isMatch msg.nick then
      if (applyUserRule cfg msg r s).highlightAlert &&
          (applyUserRule cfg msg r s).highlightSound then
        (applyUserRule cfg msg r s, true)
      else userLoop cfg msg rs (applyUserRule cfg msg r s)
    else userLoop cfg msg rs s

/-- The `HighlightPhrase` synthesized from the current user's name when
self-highlighting is active. -/
def selfHighlightPhrase (cfg : Config) : HighlightPhrase :=
  { isMatch := cfg.selfIsMatch
    showInMentions := cfg.showSelfHighlightInMentions
    hasAlert := cfg.enableSelfHighlightTaskbar
    hasSound := cfg.enableSelfHighlightSound
    soundUrl := cfg.selfHighlightSoundUrl
    color := HColor.selfHighlight }

/-- The phrase list iterated by the message-phrase loop: the configured
`highlightedMessages`, with the synthesized self-highlight phrase
appended when the current user is not anonymous, self-highlight is
enabled and the username is non-empty. -/
def activeHighlights (cfg : Config) : List HighlightPhrase :=
  cfg.highlightedMessages ++
    (if !cfg.currentUserIsAnon && cfg.enableSelfHighlight &&
        cfg.currentUsername.length > 0 then
      [selfHighlightPhrase cfg]
    else [])

/-- Body of the phrase loop for one matching rule: like `applyUserRule`,
except the sound flag and URL are only written when the sound flag is not
already set. -/
def applyPhraseRule (cfg : Config) (msg : Msg) (r : HighlightPhrase)
    (s : ResolveState) : ResolveState :=
  { highlighted := true
    showInMentions := if r.showInMentions then true else s.showInMentions
    highlightColor := if subColorGuard cfg msg then s.highlightColor else some r.color
    highlightAlert := if r.hasAlert then true else s.highlightAlert
    highlightSound := if r.hasSound && !s.highlightSound then true else s.highlightSound
    highlightSoundUrl :=
      if r.hasSound && !s.highlightSound then
        some (if r.soundUrl = "" then getFallbackHighlightSound cfg else r.soundUrl)
      else s.highlightSoundUrl }

/-- Message-phrase loop of `parseHighlights`: rules that do not match the
message text are skipped; after a matching rule, if both alert and sound
are set, the loop `break`s (only the loop — the badge category still
runs). -/
def phraseLoop (cfg : Config) (msg : Msg) :
    List HighlightPhrase → ResolveState → ResolveState
  | [], s => s
  | r :: rs, s =>
    if r.isMatch msg.text then
      if (applyPhraseRule cfg msg r s).highlightAlert &&
          (applyPhraseRule cfg msg r s).highlightSound then
        applyPhraseRule cfg msg r s
      else phraseLoop cfg msg rs (applyPhraseRule cfg msg r s)
    else phraseLoop cfg msg rs s

/-- Phrase category of `parseHighlights`: the phrase loop over the active
highlight list. -/
def phraseStage (cfg : Config) (msg : Msg) (s : ResolveState) : ResolveState :=
  phraseLoop cfg msg (activeHighlights cfg) s

/-- First-badge-match write: set `Highlighted` and the rule color (unless
the subscription color guard holds); only performed while the
`badgeHighlightSet` latch is unset. -/
def applyBadgeColor (cfg : Config) (msg : Msg) (r : HighlightBadge)
    (s : ResolveState) : ResolveState :=
  { s with
    highlighted := true
    highlightColor := if subColorGuard cfg msg then s.highlightColor else some r.color }

/-- Per-match badge effects: set alert per the rule; set the sound flag
and URL only when the sound flag is not already set. -/
def applyBadgeEffects (cfg : Config) (r : HighlightBadge)
    (s : ResolveState) : ResolveState :=
  if r.hasSound && !s.highlightSound then
    { s with
      highlightAlert := if r.hasAlert then true else s.highlightAlert
      highlightSound := true
      highlightSoundUrl :=
        some (if r.soundUrl = "" then getFallbackHighlightSound cfg else r.soundUrl) }
  else
    { s with highlightAlert := if r.hasAlert then true else s.highlightAlert }

/-- One matching badge: the first match ever (latch unset) additionally
performs the `Highlighted`/color write before the per-match effects. -/
def badgeMatchStep (cfg : Config) (msg : Msg) (r : HighlightBadge)
    (s : ResolveState) (latch : Bool) : ResolveState × Bool :=
  if !latch then (applyBadgeEffects cfg r (applyBadgeColor cfg msg r s), true)
  else (applyBadgeEffects cfg r s, latch)

/-- Inner badge loop (over the message's badges) for one badge rule,
threading the `badgeHighlightSet` latch; `break`s out of this inner loop
once both alert and sound are set. -/
def badgeInner (cfg : Config) (msg : Msg) (r : HighlightBadge) :
    List Badge → ResolveState → Bool → ResolveState × Bool
  | [], s, latch => (s, latch)
  | b :: bs, s, latch =>
    if r.isMatch b then
      if (badgeMatchStep cfg msg r s latch).1.highlightAlert &&
          (badgeMatchStep cfg msg r s latch).1.highlightSound then
        badgeMatchStep cfg msg r s latch
      else
        badgeInner cfg msg r bs (badgeMatchStep cfg msg r s latch).1
          (badgeMatchStep cfg msg r s latch).2
    else badgeInner cfg msg r bs s latch

/-- Outer badge loop over the configured badge rules. -/
def badgeOuter (cfg : Config) (msg : Msg) (badges : List Badge) :
    List HighlightBadge → ResolveState → Bool → ResolveState
  | [], s, _ => s
  | r :: rs, s, latch =>
    badgeOuter cfg msg badges rs (badgeInner cfg msg r badges s latch).1
      (badgeInner cfg msg r badges s latch).2

/-- Badge category of `parseHighlights`: both badge loops over the badges
parsed from the message tags, with the latch initially unset. -/
def badgeStage (cfg : Config) (msg : Msg) (s : ResolveState) : ResolveState :=
  badgeOuter cfg msg (parseBadges msg.tags) cfg.highlightedBadges s false

/-- Embedding of `SharedMessageBuilder::parseHighlights`: subscription
category; hard return if the sender is blacklisted; whisper category;
per-user loop with its internal `return`; self-message return; phrase
category; badge category. -/
def parseHighlights (cfg : Config) (msg : Msg) : ResolveState :=
  let s1 := subStage cfg msg initState
  if isBlacklistedUser cfg msg.nick then s1
  else
    let s2 := whisperStage cfg msg s1
    let p := userLoop cfg msg cfg.highlightedUsers s2
    if p.2 then p.1
    else if msg.nick = cfg.currentUsername then p.1
    else badgeStage cfg msg (phraseStage cfg msg p.1)

/-- Run-time context consumed by `triggerHighlights`: streamer mode, the
streamer-mode mention-mute setting, the muted-channel set and the
message's channel, application focus
(`QApplication::focusWidget() != nullptr`) and the always-play-sound
setting. -/
structure RuntimeCtx where
  streamerMode : Bool
  streamerModeMuteMentions : Bool
  mutedChannels : List String
  channelName : String
  appFocused : Bool
  highlightAlwaysPlaySound : Bool

/-- Sink requests issued by `triggerHighlights`: a playback request with
the resolved sound URL, or a taskbar alert (`windows->sendAlert()`). -/
inductive SinkCall where
  | playSound (url : Option String)
  | alert
deriving DecidableEq

/-- Whether a sink call is a playback request. -/
def SinkCall.isPlay : SinkCall → Bool
  | SinkCall.playSound _ => true
  | SinkCall.alert => false

/-- Whether a sink call is an alert request. -/
def SinkCall.isAlertCall : SinkCall → Bool
  | SinkCall.playSound _ => false
  | SinkCall.alert => true

/-- Embedding of `SharedMessageBuilder::triggerHighlights` at the level
of requested side effects: nothing in streamer mode with mention-muting,
nothing when the channel is muted; else a playback request when the
sound flag is set and focus resolves (unfocused or always-play), and an
alert request when the alert flag is set. -/
def triggerHighlights (ctx : RuntimeCtx) (s : ResolveState) : List SinkCall :=
  if ctx.streamerMode && ctx.streamerModeMuteMentions then []
  else if memberStr ctx.mutedChannels ctx.channelName then []
  else
    (if s.highlightSound && (!ctx.appFocused || ctx.highlightAlwaysPlaySound) then
      [SinkCall.playSound s.highlightSoundUrl]
    else []) ++
      (if s.highlightAlert then [SinkCall.alert] else [])

/-- Baseline configuration for concrete instances: everything disabled
and every list empty. -/
def defCfg : Config :=
  { enableSubHighlight := false
    enableSubHighlightTaskbar := false
    enableSubHighlightSound := false
    subHighlightSoundUrl := ""
    enableWhisperHighlight := false
    enableWhisperHighlightTaskbar := false
    enableWhisperHighlightSound := false
    whisperHighlightSoundUrl := ""
    blacklistedUsers := []
    highlightedUsers := []
    highlightedMessages := []
    enableSelfHighlight := false
    showSelfHighlightInMentions := false
    enableSelfHighlightTaskbar := false
    enableSelfHighlightSound := false
    selfHighlightSoundUrl := ""
    selfIsMatch := fun _ => false
    highlightedBadges := []
    customHighlightSound := false
    pathHighlightSound := ""
    pathHighlightSoundExists := false
    pathHighlightSoundIsFile := false
    currentUsername := "me"
    currentUserIsAnon := true }

/-- Baseline message for concrete instances. -/
def defMsg : Msg :=
  { isSubscription := false
    isReceivedWhisper := false
    nick := "alice"
    text := "hello"
    tags := [] }

/-- Baseline run-time context for concrete instances. -/
def defCtx : RuntimeCtx :=
  { streamerMode := false
    streamerModeMuteMentions := false
    mutedChannels := []
    channelName := "chan"
    appFocused := false
    highlightAlwaysPlaySound := false }

/-! Concrete fixtures for instantiating the theorems. -/

/-- Phrase rule matching everything, carrying no effects, colored red. -/
def ruleRed : HighlightPhrase :=
  { isMatch := fun _ => true
    showInMentions := false
    hasAlert := false
    hasSound := false
    soundUrl := ""
    color := HColor.custom "red" }

/-- Phrase rule matching everything, carrying no effects, colored
green. -/
def ruleGreen : HighlightPhrase :=
  { ruleRed with color := HColor.custom "green" }

/-- Phrase rule matching everything with mentions, alert and a custom
sound. -/
def ruleFull : HighlightPhrase :=
  { isMatch := fun _ => true
    showInMentions := true
    hasAlert := true
    hasSound := true
    soundUrl := "u"
    color := HColor.custom "red" }

/-- Phrase rule matching nothing. -/
def ruleNone : HighlightPhrase :=
  { ruleRed with isMatch := fun _ => false }

/-- Phrase rule matching everything whose only effect is a custom
sound. -/
def ruleUserSound : HighlightPhrase :=
  { ruleRed with hasSound := true, soundUrl := "uss" }

/-- Phrase rule matching everything whose only effect is the
show-in-mentions flag. -/
def ruleMention : HighlightPhrase :=
  { ruleRed with showInMentions := true }

/-- Phrase rule matching everything with a custom sound url `"y"`. -/
def ruleSoundY : HighlightPhrase :=
  { ruleRed with hasSound := true, soundUrl := "y" }

/-- Badge rule matching everything, carrying no effects, colored blue. -/
def badgeBlue : HighlightBadge :=
  { isMatch := fun _ => true
    hasAlert := false
    hasSound := false
    soundUrl := ""
    color := HColor.custom "blue" }

/-- Badge rule matching nothing. -/
def badgeNone : HighlightBadge :=
  { badgeBlue with isMatch := fun _ => false }

/-- Badge rule matching everything with a custom sound url `"z"`. -/
def badgeSoundZ : HighlightBadge :=
  { badgeBlue with hasSound := true, soundUrl := "z" }

/-- Subscription-flagged message. -/
def msgSub : Msg := { defMsg with isSubscription := true }

/-- Received-whisper message. -/
def msgWhisper : Msg := { defMsg with isReceivedWhisper := true }

/-- Message that is both a subscription event and a received whisper. -/
def msgSubWhisper : Msg :=
  { defMsg with isSubscription := true, isReceivedWhisper := true }

/-- Message sent by the current user (`defCfg.currentUsername`). -/
def msgSelf : Msg := { defMsg with nick := "me" }

/-- Whisper message carrying a subscriber badge. -/
def msgWhisperBadge : Msg :=
  { defMsg with isReceivedWhisper := true, tags := [("badges", "subscriber/12")] }

/-- Accumulator with the Subscription color already set. -/
def stSubColor : ResolveState :=
  { initState with highlightColor := some HColor.subscription }

/-- Accumulator with the sound request already set to url `"x"`. -/
def stSound : ResolveState :=
  { initState with highlightSound := true, highlightSoundUrl := some "x" }

/-- Sub-highlight enabled with colored user/phrase/badge rules that all
match. -/
def cfgC3 : Config :=
  { defCfg with
    enableSubHighlight := true
    highlightedUsers := [ruleRed]
    highlightedMessages := [ruleGreen]
    highlightedBadges := [badgeBlue] }

/-- Blacklisted sender together with whisper highlighting and an
always-matching user rule. -/
def cfgC4 : Config :=
  { defCfg with
    blacklistedUsers := ["alice"]
    enableWhisperHighlight := true
    enableWhisperHighlightTaskbar := true
    highlightedUsers := [ruleFull] }

/-- A matching phrase rule only. -/
def cfgC6 : Config := { defCfg with highlightedMessages := [ruleFull] }

/-- Valid custom highlight sound file configured. -/
def cfgC9 : Config :=
  { defCfg with
    customHighlightSound := true
    pathHighlightSound := "/tmp/ding.wav"
    pathHighlightSoundExists := true
    pathHighlightSoundIsFile := true }

/-- Whisper highlight with custom sound `"wss"` and a user rule whose
only effect is its own custom sound `"uss"`. -/
def cfgC1 : Config :=
  { defCfg with
    enableWhisperHighlight := true
    enableWhisperHighlightSound := true
    whisperHighlightSoundUrl := "wss"
    highlightedUsers := [ruleUserSound] }

/-- Matching phrase and badge rules with custom sounds of their own. -/
def cfgC1w : Config :=
  { defCfg with
    highlightedMessages := [ruleSoundY]
    highlightedBadges := [badgeSoundZ] }

/-- Sub and whisper highlighting both enabled. -/
def cfgC2 : Config :=
  { defCfg with enableSubHighlight := true, enableWhisperHighlight := true }

/-- Sub highlight with alert and sound, a non-matching user rule and a
matching mentions-only phrase rule. -/
def cfgC5 : Config :=
  { defCfg with
    enableSubHighlight := true
    enableSubHighlightTaskbar := true
    enableSubHighlightSound := true
    highlightedUsers := [ruleNone]
    highlightedMessages := [ruleMention] }

/-- A single user rule with alert and sound that matches. -/
def cfgC5w : Config := { defCfg with highlightedUsers := [ruleFull] }

/-- Whisper highlighting fully enabled, with rules in every category
that match nothing. -/
def cfgC10 : Config :=
  { defCfg with
    enableWhisperHighlight := true
    enableWhisperHighlightTaskbar := true
    enableWhisperHighlightSound := true
    whisperHighlightSoundUrl := "w"
    highlightedUsers := [ruleNone]
    highlightedMessages := [ruleNone]
    highlightedBadges := [badgeNone] }

/-! Helper lemmas about the resolver stages. -/

/-- The per-user rule body never changes the color while the subscription
color guard holds. -/
theorem applyUserRule_color (cfg : Config) (msg : Msg) (r : HighlightPhrase)
    (s : ResolveState) (h : subColorGuard cfg msg = true) :
    (applyUserRule cfg msg r s).highlightColor = s.highlightColor := by
  simp [applyUserRule, h]

/-- The per-user loop never changes the color while the subscription
color guard holds. -/
theorem userLoop_color (cfg : Config) (msg : Msg)
    (h : subColorGuard cfg msg = true) :
    ∀ rs s, ((userLoop cfg msg rs s).1).highlightColor = s.highlightColor := by
  intro rs
  induction rs with
  | nil => intro s; rfl
  | cons r rs ih =>
    intro s
    by_cases hm : r.isMatch msg.nick
    · by_cases hc : ((applyUserRule cfg msg r s).highlightAlert &&
          (applyUserRule cfg msg r s).highlightSound) = true
      · simp [userLoop, hm, hc, applyUserRule_color cfg msg r s h]
      · simp [userLoop, hm, hc, ih, applyUserRule_color cfg msg r s h]
    · simp [userLoop, hm, ih]

/-- The phrase rule body never changes the color while the subscription
color guard holds. -/
theorem applyPhraseRule_color (cfg : Config) (msg : Msg) (r : HighlightPhrase)
    (s : ResolveState) (h : subColorGuard cfg msg = true) :
    (applyPhraseRule cfg msg r s).highlightColor = s.highlightColor := by
  simp [applyPhraseRule, h]

/-- The phrase loop never changes the color while the subscription color
guard holds. -/
theorem phraseLoop_color (cfg : Config) (msg : Msg)
    (h : subColorGuard cfg msg = true) :
    ∀ rs s, (phraseLoop cfg msg rs s).highlightColor = s.highlightColor := by
  intro rs
  induction rs with
  | nil => intro s; rfl
  | cons r rs ih =>
    intro s
    by_cases hm : r.isMatch msg.text
    · by_cases hc : ((applyPhraseRule cfg msg r s).highlightAlert &&
          (applyPhraseRule cfg msg r s).highlightSound) = true
      · simp [phraseLoop, hm, hc, applyPhraseRule_color cfg msg r s h]
      · simp [phraseLoop, hm, hc, ih, applyPhraseRule_color cfg msg r s h]
    · simp [phraseLoop, hm, ih]

/-- Badge effects never change the color. -/
theorem applyBadgeEffects_color (cfg : Config) (r : HighlightBadge)
    (s : ResolveState) :
    (applyBadgeEffects cfg r s).highlightColor = s.highlightColor := by
  simp only [applyBadgeEffects]
  split <;> rfl

/-- A matching badge step never changes the color while the subscription
color guard holds. -/
theorem badgeMatchStep_color (cfg : Config) (msg : Msg) (r : HighlightBadge)
    (s : ResolveState) (latch : Bool) (h : subColorGuard cfg msg = true) :
    ((badgeMatchStep cfg msg r s latch).1).highlightColor = s.highlightColor := by
  cases latch <;>
    simp [badgeMatchStep, applyBadgeEffects_color, applyBadgeColor, h]

/-- The inner badge loop never changes the color while the subscription
color guard holds. -/
theorem badgeInner_color (cfg : Config) (msg : Msg) (r : HighlightBadge)
    (h : subColorGuard cfg msg = true) :
    ∀ bs s latch, ((badgeInner cfg msg r bs s latch).1).highlightColor =
      s.highlightColor := by
  intro bs
  induction bs with
  | nil => intro s latch; rfl
  | cons b bs ih =>
    intro s latch
    by_cases hm : r.isMatch b
    · by_cases hc : (((badgeMatchStep cfg msg r s latch).1).highlightAlert &&
          ((badgeMatchStep cfg msg r s latch).1).highlightSound) = true
      · simp [badgeInner, hm, hc, badgeMatchStep_color cfg msg r s latch h]
      · simp [badgeInner, hm, hc, ih, badgeMatchStep_color cfg msg r s latch h]
    · simp [badgeInner, hm, ih]

/-- The outer badge loop never changes the color while the subscription
color guard holds. -/
theorem badgeOuter_color (cfg : Config) (msg : Msg) (badges : List Badge)
    (h : subColorGuard cfg msg = true) :
    ∀ rules s latch, (badgeOuter cfg msg badges rules s latch).highlightColor =
      s.highlightColor := by
  intro rules
  induction rules with
  | nil => intro s latch; rfl
  | cons r rules ih =>
    intro s latch
    simp [badgeOuter, ih, badgeInner_color cfg msg r h]

/-- The phrase rule body preserves an already-set sound flag and its
URL. -/
theorem applyPhraseRule_sound (cfg : Config) (msg : Msg) (r : HighlightPhrase)
    (s : ResolveState) (h : s.highlightSound = true) :
    (applyPhraseRule cfg msg r s).highlightSound = true ∧
      (applyPhraseRule cfg msg r s).highlightSoundUrl = s.highlightSoundUrl := by
  simp [applyPhraseRule, h]

/-- The phrase loop preserves an already-set sound flag and its URL. -/
theorem phraseLoop_sound (cfg : Config) (msg : Msg) :
    ∀ rs s, s.highlightSound = true →
      (phraseLoop cfg msg rs s).highlightSound = true ∧
        (phraseLoop cfg msg rs s).highlightSoundUrl = s.highlightSoundUrl := by
  intro rs
  induction rs with
  | nil => intro s h; exact ⟨h, rfl⟩
  | cons r rs ih =>
    intro s h
    by_cases hm : r.isMatch msg.text
    · by_cases hc : ((applyPhraseRule cfg msg r s).highlightAlert &&
          (applyPhraseRule cfg msg r s).highlightSound) = true
      · have ha := (Bool.and_eq_true _ _).mp hc
        simp [phraseLoop, hm, hc, ha.1, applyPhraseRule_sound cfg msg r s h]
      · have hs := applyPhraseRule_sound cfg msg r s h
        have := ih (applyPhraseRule cfg msg r s) hs.1
        simp only [phraseLoop, hm, if_true, hc, if_false]
        exact ⟨this.1, this.2.trans hs.2⟩
    · simp only [phraseLoop, hm, if_false]
      exact ih s h

/-- The badge color write never touches sound fields. -/
theorem applyBadgeColor_sound (cfg : Config) (msg : Msg) (r : HighlightBadge)
    (s : ResolveState) :
    (applyBadgeColor cfg msg r s).highlightSound = s.highlightSound ∧
      (applyBadgeColor cfg msg r s).highlightSoundUrl = s.highlightSoundUrl := by
  simp [applyBadgeColor]

/-- Badge effects preserve an already-set sound flag and its URL. -/
theorem applyBadgeEffects_sound (cfg : Config) (r : HighlightBadge)
    (s : ResolveState) (h : s.highlightSound = true) :
    (applyBadgeEffects cfg r s).highlightSound = true ∧
      (applyBadgeEffects cfg r s).highlightSoundUrl = s.highlightSoundUrl := by
  simp [applyBadgeEffects, h]

/-- A matching badge step preserves an already-set sound flag and its
URL. -/
theorem badgeMatchStep_sound (cfg : Config) (msg : Msg) (r : HighlightBadge)
    (s : ResolveState) (latch : Bool) (h : s.highlightSound = true) :
    ((badgeMatchStep cfg msg r s latch).1).highlightSound = true ∧
      ((badgeMatchStep cfg msg r s latch).1).highlightSoundUrl =
        s.highlightSoundUrl := by
  cases latch with
  | false =>
    have hc := applyBadgeColor_sound cfg msg r s
    have he := applyBadgeEffects_sound cfg r (applyBadgeColor cfg msg r s)
      (hc.1.trans h)
    simpa [badgeMatchStep, hc.2] using he
  | true =>
    simpa [badgeMatchStep] using applyBadgeEffects_sound cfg r s h

/-- The inner badge loop preserves an already-set sound flag and its
URL. -/
theorem badgeInner_sound (cfg : Config) (msg : Msg) (r : HighlightBadge) :
    ∀ bs s latch, s.highlightSound = true →
      ((badgeInner cfg msg r bs s latch).1).highlightSound = true ∧
        ((badgeInner cfg msg r bs s latch).1).highlightSoundUrl =
          s.highlightSoundUrl := by
  intro bs
  induction bs with
  | nil => intro s latch h; exact ⟨h, rfl⟩
  | cons b bs ih =>
    intro s latch h
    by_cases hm : r.isMatch b
    · by_cases hc : (((badgeMatchStep cfg msg r s latch).1).highlightAlert &&
          ((badgeMatchStep cfg msg r s latch).1).highlightSound) = true
      · have ha := (Bool.and_eq_true _ _).mp hc
        simp [badgeInner, hm, hc, ha.1, badgeMatchStep_sound cfg msg r s latch h]
      · have hs := badgeMatchStep_sound cfg msg r s latch h
        have := ih (badgeMatchStep cfg msg r s latch).1
          (badgeMatchStep cfg msg r s latch).2 hs.1
        simp only [badgeInner, hm, if_true, hc, if_false]
        exact ⟨this.1, this.2.trans hs.2⟩
    · simp only [badgeInner, hm, if_false]
      exact ih s latch h

/-- The outer badge loop preserves an already-set sound flag and its
URL. -/
theorem badgeOuter_sound (cfg : Config) (msg : Msg) (badges : List Badge) :
    ∀ rules s latch, s.highlightSound = true →
      (badgeOuter cfg msg badges rules s latch).highlightSound = true ∧
        (badgeOuter cfg msg badges rules s latch).highlightSoundUrl =
          s.highlightSoundUrl := by
  intro rules
  induction rules with
  | nil => intro s latch h; exact ⟨h, rfl⟩
  | cons r rules ih =>
    intro s latch h
    have hs := badgeInner_sound cfg msg r badges s latch h
    have := ih (badgeInner cfg msg r badges s latch).1
      (badgeInner cfg msg r badges s latch).2 hs.1
    simp only [badgeOuter]
    exact ⟨this.1, this.2.trans hs.2⟩

/-- A user loop over rules none of which match the nick is a no-op that
does not return. -/
theorem userLoop_nomatch (cfg : Config) (msg : Msg) :
    ∀ rs s, (∀ r ∈ rs, r.isMatch msg.nick = false) →
      userLoop cfg msg rs s = (s, false) := by
  intro rs
  induction rs with
  | nil => intro s _; rfl
  | cons r rs ih =>
    intro s h
    have hr := h r (List.mem_cons_self r rs)
    simp only [userLoop, hr, if_false, Bool.false_eq_true]
    exact ih s (fun r' hr' => h r' (List.mem_cons_of_mem r hr'))

/-- A phrase loop over rules none of which match the text is a no-op. -/
theorem phraseLoop_nomatch (cfg : Config) (msg : Msg) :
    ∀ rs s, (∀ r ∈ rs, r.isMatch msg.text = false) →
      phraseLoop cfg msg rs s = s := by
  intro rs
  induction rs with
  | nil => intro s _; rfl
  | cons r rs ih =>
    intro s h
    have hr := h r (List.mem_cons_self r rs)
    simp only [phraseLoop, hr, if_false, Bool.false_eq_true]
    exact ih s (fun r' hr' => h r' (List.mem_cons_of_mem r hr'))

/-- An inner badge loop with no matching badge is a no-op. -/
theorem badgeInner_nomatch (cfg : Config) (msg : Msg) (r : HighlightBadge) :
    ∀ bs s latch, (∀ b ∈ bs, r.isMatch b = false) →
      badgeInner cfg msg r bs s latch = (s, latch) := by
  intro bs
  induction bs with
  | nil => intro s latch _; rfl
  | cons b bs ih =>
    intro s latch h
    have hb := h b (List.mem_cons_self b bs)
    simp only [badgeInner, hb, if_false, Bool.false_eq_true]
    exact ih s latch (fun b' hb' => h b' (List.mem_cons_of_mem b hb'))

/-- An outer badge loop in which no rule matches any badge is a no-op. -/
theorem badgeOuter_nomatch (cfg : Config) (msg : Msg) (badges : List Badge) :
    ∀ rules s latch, (∀ r ∈ rules, ∀ b ∈ badges, r.isMatch b = false) →
      badgeOuter cfg msg badges rules s latch = s := by
  intro rules
  induction rules with
  | nil => intro s latch _; rfl
  | cons r rules ih =>
    intro s latch h
    have hr := badgeInner_nomatch cfg msg r badges s latch
      (h r (List.mem_cons_self r rules))
    simp only [badgeOuter, hr]
    exact ih s latch (fun r' hr' => h r' (List.mem_cons_of_mem r hr'))

/-! Claim theorems. -/

/-- C3: for every message flagged as a subscription event resolved with
the sub-highlight setting enabled, no matching per-user, phrase, or
badge rule replaces the message's `highlightColor` with its own rule
color in the same resolution pass: the per-user loop, the phrase stage
and the badge stage all leave `highlightColor` unchanged. -/
theorem C3_sub_color_protected_from_rules (cfg : Config) (msg : Msg)
    (h1 : msg.isSubscription = true) (h2 : cfg.enableSubHighlight = true) :
    ∀ s : ResolveState,
      ((userLoop cfg msg cfg.highlightedUsers s).1).highlightColor =
          s.highlightColor ∧
        (phraseStage cfg msg s).highlightColor = s.highlightColor ∧
        (badgeStage cfg msg s).highlightColor = s.highlightColor := by
  have hg : subColorGuard cfg msg = true := by simp [subColorGuard, h1, h2]
  intro s
  exact ⟨userLoop_color cfg msg hg cfg.highlightedUsers s,
    phraseLoop_color cfg msg hg (activeHighlights cfg) s,
    badgeOuter_color cfg msg (parseBadges msg.tags) hg cfg.highlightedBadges s false⟩

/-- Witness for C3: a subscription message with sub-highlight enabled and
matching user/phrase/badge rules carrying their own colors; none of the
three categories changes the already-set Subscription color. -/
theorem C3_witness :
    ((userLoop cfgC3 msgSub cfgC3.highlightedUsers stSubColor).1).highlightColor =
        stSubColor.highlightColor ∧
      (phraseStage cfgC3 msgSub stSubColor).highlightColor =
        stSubColor.highlightColor ∧
      (badgeStage cfgC3 msgSub stSubColor).highlightColor =
        stSubColor.highlightColor :=
  C3_sub_color_protected_from_rules cfgC3 msgSub rfl rfl stSubColor

/-- C4: for every message whose sender is on the highlight blacklist,
`parseHighlights` returns right after the subscription category: the
final state is exactly the subscription category's state, so no
whisper/user/phrase/badge rule contributes anything. -/
theorem C4_blacklist_returns_after_sub (cfg : Config) (msg : Msg)
    (h : isBlacklistedUser cfg msg.nick = true) :
    parseHighlights cfg msg = subStage cfg msg initState := by
  simp [parseHighlights, h]

/-- Witness for C4: a blacklisted sender on a whisper with whisper
highlighting enabled and an always-matching user rule; the result is
still just the subscription category's output. -/
theorem C4_witness :
    isBlacklistedUser cfgC4 msgWhisper.nick = true ∧
      parseHighlights cfgC4 msgWhisper = subStage cfgC4 msgWhisper initState :=
  ⟨rfl, C4_blacklist_returns_after_sub cfgC4 msgWhisper rfl⟩

/-- C6: for every message whose sender equals the current user's name
and is not blacklisted (if blacklisted, resolution ended even earlier),
`parseHighlights` returns the per-user loop's state: the phrase and
badge categories are never evaluated, whatever their rules match. -/
theorem C6_self_returns_before_phrase_badge (cfg : Config) (msg : Msg)
    (h1 : msg.nick = cfg.currentUsername)
    (h2 : isBlacklistedUser cfg msg.nick = false) :
    parseHighlights cfg msg =
      (userLoop cfg msg cfg.highlightedUsers
        (whisperStage cfg msg (subStage cfg msg initState))).1 := by
  simp only [parseHighlights, h2, Bool.false_eq_true, if_false]
  by_cases hp : (userLoop cfg msg cfg.highlightedUsers
      (whisperStage cfg msg (subStage cfg msg initState))).2 <;>
    simp [hp, h1]

/-- Witness for C6: the sender is the current user and a phrase rule
with every effect matches the message text, yet the result is the
per-user loop's state. -/
theorem C6_witness :
    parseHighlights cfgC6 msgSelf =
      (userLoop cfgC6 msgSelf cfgC6.highlightedUsers
        (whisperStage cfgC6 msgSelf (subStage cfgC6 msgSelf initState))).1 :=
  C6_self_returns_before_phrase_badge cfgC6 msgSelf rfl rfl

/-- C9: the fallback sound resolver is total and returns the custom path
as a local-file URL exactly when the custom-sound option is on and the
path is an existing regular file, and the built-in
`qrc:/sounds/ping2.wav` in every other case. -/
theorem C9_fallback_sound_policy (cfg : Config) :
    (cfg.customHighlightSound = true → cfg.pathHighlightSoundExists = true →
      cfg.pathHighlightSoundIsFile = true →
      getFallbackHighlightSound cfg = "file://" ++ cfg.pathHighlightSound) ∧
      ((cfg.customHighlightSound &&
          (cfg.pathHighlightSoundExists && cfg.pathHighlightSoundIsFile)) = false →
        getFallbackHighlightSound cfg = "qrc:/sounds/ping2.wav") := by
  constructor
  · intro h1 h2 h3
    simp [getFallbackHighlightSound, h1, h2, h3]
  · intro h
    simp [getFallbackHighlightSound, h]

/-- Witness for C9: a valid custom file yields its local-file URL; the
baseline configuration (no custom sound) yields the default resource. -/
theorem C9_witness :
    getFallbackHighlightSound cfgC9 = "file://" ++ cfgC9.pathHighlightSound ∧
      getFallbackHighlightSound defCfg = "qrc:/sounds/ping2.wav" :=
  ⟨(C9_fallback_sound_policy cfgC9).1 rfl rfl rfl,
    (C9_fallback_sound_policy defCfg).2 rfl⟩

/-- C7: for every tag mapping, `parseBadges` returns exactly the badges
obtained by splitting the `badges` tag value on `','` (empty tokens
skipped, via `parseTagList`), splitting each token on `'/'`, keeping a
token as a badge iff it splits into exactly two parts and silently
dropping the rest, in order of appearance; and concretely the value
`"malformed,subscriber/12"` yields the single badge
`{subscriber, 12}`. -/
theorem C7_badge_parsing (tags : List (String × String)) :
    parseBadges tags =
      (parseTagList tags "badges").filterMap (fun tok =>
        match splitChar '/' tok.data with
        | [a, b] => some ⟨String.mk a, String.mk b⟩
        | _ => none) ∧
      parseBadges [("badges", "malformed,subscriber/12")] =
        [⟨"subscriber", "12"⟩] := by
  constructor
  · show parseBadgesAux (parseTagList tags "badges") = _
    generalize parseTagList tags "badges" = l
    induction l with
    | nil => rfl
    | cons tok rest ih =>
      rcases hsp : splitChar '/' tok.data with _ | ⟨a, _ | ⟨b, _ | ⟨c, t⟩⟩⟩ <;>
        simp [parseBadgesAux, hsp, ih]
  · decide

/-- C8: `triggerHighlights` makes no sink call under streamer-mode
mention-muting or a muted channel; otherwise playback is requested iff
the sound flag is set and focus resolves (unfocused or always-play),
the alert fires iff the alert flag is set (independent of focus), and
each kind of sink call occurs at most once. -/
theorem C8_dispatcher (ctx : RuntimeCtx) (st : ResolveState) :
    (((ctx.streamerMode && ctx.streamerModeMuteMentions) = true ∨
        memberStr ctx.mutedChannels ctx.channelName = true) →
      triggerHighlights ctx st = []) ∧
      ((ctx.streamerMode && ctx.streamerModeMuteMentions) = false →
        memberStr ctx.mutedChannels ctx.channelName = false →
        ((SinkCall.playSound st.highlightSoundUrl ∈ triggerHighlights ctx st) ↔
          (st.highlightSound && (!ctx.appFocused || ctx.highlightAlwaysPlaySound)) = true) ∧
          ((SinkCall.alert ∈ triggerHighlights ctx st) ↔ st.highlightAlert = true)) ∧
      (triggerHighlights ctx st).countP SinkCall.isPlay ≤ 1 ∧
      (triggerHighlights ctx st).countP SinkCall.isAlertCall ≤ 1 := by
  refine ⟨?_, ?_, ?_, ?_⟩
  · rintro (h | h)
    · simp [triggerHighlights, h]
    · by_cases hs : (ctx.streamerMode && ctx.streamerModeMuteMentions) = true <;>
        simp [triggerHighlights, hs, h]
  · intro h1 h2
    by_cases hs : (st.highlightSound &&
        (!ctx.appFocused || ctx.highlightAlwaysPlaySound)) = true <;>
      by_cases ha : st.highlightAlert = true <;>
      simp [triggerHighlights, h1, h2, hs, ha]
  · by_cases h1 : (ctx.streamerMode && ctx.streamerModeMuteMentions) = true <;>
      by_cases h2 : memberStr ctx.mutedChannels ctx.channelName = true <;>
      by_cases hs : (st.highlightSound &&
        (!ctx.appFocused || ctx.highlightAlwaysPlaySound)) = true <;>
      by_cases ha : st.highlightAlert = true <;>
      simp [triggerHighlights, h1, h2, hs, ha, List.countP_cons, SinkCall.isPlay,
        SinkCall.isAlertCall]
  · by_cases h1 : (ctx.streamerMode && ctx.streamerModeMuteMentions) = true <;>
      by_cases h2 : memberStr ctx.mutedChannels ctx.channelName = true <;>
      by_cases hs : (st.highlightSound &&
        (!ctx.appFocused || ctx.highlightAlwaysPlaySound)) = true <;>
      by_cases ha : st.highlightAlert = true <;>
      simp [triggerHighlights, h1, h2, hs, ha, List.countP_cons, SinkCall.isPlay,
        SinkCall.isAlertCall]

/-- Witness for C8: in streamer mode with mention-muting nothing is
requested even with all flags set; in the baseline unfocused context, a
state with both flags set requests playback and the alert. -/
theorem C8_witness :
    triggerHighlights
        { defCtx with streamerMode := true, streamerModeMuteMentions := true }
        { stSound with highlightAlert := true } = [] ∧
      ((SinkCall.playSound
          ({ stSound with highlightAlert := true } : ResolveState).highlightSoundUrl ∈
        triggerHighlights defCtx { stSound with highlightAlert := true }) ↔
        (({ stSound with highlightAlert := true } : ResolveState).highlightSound &&
          (!defCtx.appFocused || defCtx.highlightAlwaysPlaySound)) = true) ∧
      ((SinkCall.alert ∈ triggerHighlights defCtx { stSound with highlightAlert := true }) ↔
        ({ stSound with highlightAlert := true } : ResolveState).highlightAlert = true) :=
  ⟨(C8_dispatcher { defCtx with streamerMode := true, streamerModeMuteMentions := true }
      { stSound with highlightAlert := true }).1 (Or.inl rfl),
    ((C8_dispatcher defCtx { stSound with highlightAlert := true }).2.1 rfl rfl).1,
    ((C8_dispatcher defCtx { stSound with highlightAlert := true }).2.1 rfl rfl).2⟩

/-- C10: a message matched only by the whisper category (received
whisper, whisper-highlight enabled, subscription category inactive,
sender not blacklisted, no user/phrase/badge rule matching) ends up with
the Whisper `highlightColor` and alert/sound requests exactly per their
enable flags, but with the `Highlighted` flag still unset — whereas the
subscription category and the per-user/phrase/badge rule bodies all set
`Highlighted` on a match. -/
theorem C10_whisper_no_highlighted_flag :
    (∀ cfg msg,
      msg.isReceivedWhisper = true → cfg.enableWhisperHighlight = true →
      (msg.isSubscription && cfg.enableSubHighlight) = false →
      isBlacklistedUser cfg msg.nick = false →
      (∀ r ∈ cfg.highlightedUsers, r.isMatch msg.nick = false) →
      (∀ r ∈ activeHighlights cfg, r.isMatch msg.text = false) →
      (∀ r ∈ cfg.highlightedBadges, ∀ b ∈ parseBadges msg.tags,
        r.isMatch b = false) →
      (parseHighlights cfg msg).highlighted = false ∧
        (parseHighlights cfg msg).highlightColor = some HColor.whisper ∧
        (parseHighlights cfg msg).highlightAlert = cfg.enableWhisperHighlightTaskbar ∧
        (parseHighlights cfg msg).highlightSound = cfg.enableWhisperHighlightSound) ∧
      (∀ cfg msg s, (msg.isSubscription && cfg.enableSubHighlight) = true →
        (subStage cfg msg s).highlighted = true) ∧
      (∀ cfg msg r s, (applyUserRule cfg msg r s).highlighted = true) ∧
      (∀ cfg msg r s, (applyPhraseRule cfg msg r s).highlighted = true) ∧
      (∀ cfg msg r s, (applyBadgeColor cfg msg r s).highlighted = true) := by
  refine ⟨?_, ?_, ?_, ?_, ?_⟩
  · intro cfg msg hw hwe hsub hbl hu hp hbdg
    have h1 : subStage cfg msg initState = initState := by simp [subStage, hsub]
    have hloop := userLoop_nomatch cfg msg cfg.highlightedUsers
      (whisperStage cfg msg initState) hu
    have hfin : parseHighlights cfg msg = whisperStage cfg msg initState := by
      simp only [parseHighlights, hbl, Bool.false_eq_true, if_false, h1, hloop]
      by_cases hn : msg.nick = cfg.currentUsername
      · simp [hn]
      · have hps : phraseStage cfg msg (whisperStage cfg msg initState) =
            whisperStage cfg msg initState :=
          phraseLoop_nomatch cfg msg (activeHighlights cfg) _ hp
        have hbs : badgeStage cfg msg (whisperStage cfg msg initState) =
            whisperStage cfg msg initState :=
          badgeOuter_nomatch cfg msg (parseBadges msg.tags) cfg.highlightedBadges
            _ false hbdg
        simp [hn, hps, hbs]
    have hcond : (msg.isReceivedWhisper && cfg.enableWhisperHighlight) = true := by
      simp [hw, hwe]
    refine ⟨?_, ?_, ?_, ?_⟩ <;> rw [hfin]
    · simp [whisperStage, hcond, initState]
    · simp [whisperStage, hcond]
    · cases htb : cfg.enableWhisperHighlightTaskbar <;>
        simp [whisperStage, hcond, initState, htb]
    · cases hsd : cfg.enableWhisperHighlightSound <;>
        simp [whisperStage, hcond, initState, hsd]
  · intro cfg msg s h
    simp [subStage, h]
  · intro cfg msg r s
    simp [applyUserRule]
  · intro cfg msg r s
    simp [applyPhraseRule]
  · intro cfg msg r s
    simp [applyBadgeColor]

/-- Witness for C10: a whisper with full whisper settings, a subscriber
badge, and never-matching rules in every category; the color is Whisper,
alert and sound are requested, and `Highlighted` stays unset. -/
theorem C10_witness :
    (parseHighlights cfgC10 msgWhisperBadge).highlighted = false ∧
      (parseHighlights cfgC10 msgWhisperBadge).highlightColor = some HColor.whisper ∧
      (parseHighlights cfgC10 msgWhisperBadge).highlightAlert =
        cfgC10.enableWhisperHighlightTaskbar ∧
      (parseHighlights cfgC10 msgWhisperBadge).highlightSound =
        cfgC10.enableWhisperHighlightSound :=
  C10_whisper_no_highlighted_flag.1 cfgC10 msgWhisperBadge rfl rfl rfl rfl
    (by decide) (by decide) (by decide)

/-- Counterexample to C1 as stated: with whisper highlighting having set
the sound request and its custom URL `"wss"`, a later-evaluated per-user
rule with a sound of its own overwrites the stored URL with `"uss"`. -/
theorem C1_counterexample :
    (whisperStage cfgC1 msgWhisper (subStage cfgC1 msgWhisper initState)).highlightSound =
        true ∧
      (whisperStage cfgC1 msgWhisper
          (subStage cfgC1 msgWhisper initState)).highlightSoundUrl = some "wss" ∧
      (parseHighlights cfgC1 msgWhisper).highlightSoundUrl = some "uss" := by
  decide

/-- C1 (amended): once the sound request is set by the time the phrase
category starts, neither the phrase nor the badge category overwrites
the stored sound URL (the whisper and per-user categories, by contrast,
overwrite unconditionally when their own sound condition holds). -/
theorem C1_phrase_badge_first_sound_wins (cfg : Config) (msg : Msg)
    (s : ResolveState) (h : s.highlightSound = true) :
    (badgeStage cfg msg (phraseStage cfg msg s)).highlightSound = true ∧
      (badgeStage cfg msg (phraseStage cfg msg s)).highlightSoundUrl =
        s.highlightSoundUrl := by
  have hp := phraseLoop_sound cfg msg (activeHighlights cfg) s h
  have hb := badgeOuter_sound cfg msg (parseBadges msg.tags) cfg.highlightedBadges
    (phraseStage cfg msg s) false hp.1
  exact ⟨hb.1, hb.2.trans hp.2⟩

/-- Witness for the amended C1: a state whose sound URL is `"x"` passes
matching phrase and badge rules with custom sounds `"y"` and `"z"`
without the URL changing. -/
theorem C1_witness :
    stSound.highlightSound = true ∧
      (badgeStage cfgC1w msgWhisperBadge
          (phraseStage cfgC1w msgWhisperBadge stSound)).highlightSound = true ∧
      (badgeStage cfgC1w msgWhisperBadge
          (phraseStage cfgC1w msgWhisperBadge stSound)).highlightSoundUrl =
        stSound.highlightSoundUrl :=
  ⟨rfl, (C1_phrase_badge_first_sound_wins cfgC1w msgWhisperBadge stSound rfl).1,
    (C1_phrase_badge_first_sound_wins cfgC1w msgWhisperBadge stSound rfl).2⟩

/-- Counterexample to C2 as stated: on a message that is both a
subscription event and a received whisper, with sub-highlight and
whisper-highlight enabled, the subscription category sets the
Subscription color and the later whisper category overwrites it with the
Whisper color. -/
theorem C2_counterexample :
    (subStage cfgC2 msgSubWhisper initState).highlightColor =
        some HColor.subscription ∧
      (parseHighlights cfgC2 msgSubWhisper).highlightColor =
        some HColor.whisper := by
  decide

/-- C2 (amended): for a subscription-flagged message with sub-highlight
enabled, the final color is exactly the color after the whisper category
(after the subscription category when blacklisted): the per-user, phrase
and badge categories never overwrite it.  Only the whisper category,
which lacks the subscription guard, can change the subscription
color. -/
theorem C2_sub_color_final_after_whisper (cfg : Config) (msg : Msg)
    (h1 : msg.isSubscription = true) (h2 : cfg.enableSubHighlight = true) :
    (parseHighlights cfg msg).highlightColor =
      (if isBlacklistedUser cfg msg.nick then subStage cfg msg initState
       else whisperStage cfg msg (subStage cfg msg initState)).highlightColor := by
  have hg : subColorGuard cfg msg = true := by simp [subColorGuard, h1, h2]
  by_cases hb : isBlacklistedUser cfg msg.nick
  · simp [parseHighlights, hb]
  · simp only [parseHighlights, hb, Bool.false_eq_true, if_false]
    by_cases hp : (userLoop cfg msg cfg.highlightedUsers
        (whisperStage cfg msg (subStage cfg msg initState))).2
    · simp only [hp, if_true]
      exact userLoop_color cfg msg hg cfg.highlightedUsers _
    · by_cases hn : msg.nick = cfg.currentUsername
      · simp only [hp, Bool.false_eq_true, if_false, hn, if_true]
        exact userLoop_color cfg msg hg cfg.highlightedUsers _
      · simp only [hp, Bool.false_eq_true, if_false, hn]
        exact (badgeOuter_color cfg msg (parseBadges msg.tags) hg
            cfg.highlightedBadges _ false).trans
          ((phraseLoop_color cfg msg hg (activeHighlights cfg) _).trans
            (userLoop_color cfg msg hg cfg.highlightedUsers _))

/-- Witness for the amended C2: a subscription message (not blacklisted)
resolved under sub- and whisper-highlight settings keeps the color it
has right after the whisper category. -/
theorem C2_witness :
    (parseHighlights cfgC2 msgSub).highlightColor =
      (if isBlacklistedUser cfgC2 msgSub.nick then subStage cfgC2 msgSub initState
       else whisperStage cfgC2 msgSub (subStage cfgC2 msgSub initState)).highlightColor :=
  C2_sub_color_final_after_whisper cfgC2 msgSub rfl rfl

/-- Counterexample to C5 as stated: both the alert and the sound request
are already satisfied (by the subscription category) when the per-user
category scans its single, non-matching rule; resolution does not
return there — the phrase category still runs and sets the
show-in-mentions flag. -/
theorem C5_counterexample :
    (whisperStage cfgC5 msgSub (subStage cfgC5 msgSub initState)).highlightAlert =
        true ∧
      (whisperStage cfgC5 msgSub (subStage cfgC5 msgSub initState)).highlightSound =
        true ∧
      cfgC5.highlightedUsers.length = 1 ∧
      (parseHighlights cfgC5 msgSub).showInMentions = true := by
  decide

/-- C5 (amended): the early stop of the per-user category happens after
each *matching* rule: if a rule matches and after applying it both the
alert and the sound request are satisfied, the loop returns immediately
with that state, and (when the sender is not blacklisted) such a loop
return is the final result of resolution — the self check, phrase and
badge categories are skipped. -/
theorem C5_user_loop_return_semantics :
    (∀ (cfg : Config) (msg : Msg) (r : HighlightPhrase) rs s,
      r.isMatch msg.nick = true →
      ((applyUserRule cfg msg r s).highlightAlert &&
        (applyUserRule cfg msg r s).highlightSound) = true →
      userLoop cfg msg (r :: rs) s = (applyUserRule cfg msg r s, true)) ∧
      (∀ (cfg : Config) (msg : Msg) s',
        isBlacklistedUser cfg msg.nick = false →
        userLoop cfg msg cfg.highlightedUsers
          (whisperStage cfg msg (subStage cfg msg initState)) = (s', true) →
        parseHighlights cfg msg = s') := by
  constructor
  · intro cfg msg r rs s hm hc
    simp [userLoop, hm, hc]
  · intro cfg msg s' hb hl
    simp [parseHighlights, hb, hl]

/-- Witness for the amended C5: a matching user rule with alert and
sound makes the loop return at once, and that return is the final
resolution result. -/
theorem C5_witness :
    userLoop cfgC5w defMsg (ruleFull :: []) initState =
        (applyUserRule cfgC5w defMsg ruleFull initState, true) ∧
      parseHighlights cfgC5w defMsg =
        applyUserRule cfgC5w defMsg ruleFull
          (whisperStage cfgC5w defMsg (subStage cfgC5w defMsg initState)) :=
  ⟨C5_user_loop_return_semantics.1 cfgC5w defMsg ruleFull [] initState rfl rfl,
    C5_user_loop_return_semantics.2 cfgC5w defMsg _ rfl
      (C5_user_loop_return_semantics.1 cfgC5w defMsg ruleFull []
        (whisperStage cfgC5w defMsg (subStage cfgC5w defMsg initState)) rfl rfl)⟩

end Chatterino
